import Mathlib

/-!
Verification of the site configuration repository.

The repository consists of a single declarative configuration file,
`site/pelicanconf.py`, which binds module-level names to constant values
(strings, a boolean, a disabled sentinel `None`, and two tuples of
string pairs).  We embed the module as the ordered list of its
assignments, each key bound to a `PyValue` mirroring the Python value.
-/

namespace Pelicanconf

/-- Values appearing on the right-hand side of assignments in
`site/pelicanconf.py`: unicode strings, the `None` sentinel, booleans,
and tuples of `(string, string)` pairs. -/
inductive PyValue where
  | str : String → PyValue
  | none : PyValue
  | bool : Bool → PyValue
  | pairs : List (String × String) → PyValue
deriving DecidableEq

/-- The `LINKS` tuple of `site/pelicanconf.py` (the blogroll), in source
order.  The CloudFlare URL ends in the two characters U+0E22 U+0E07,
exactly as in the source bytes. -/
def LINKS : List (String × String) :=
  [("Pelican", "http://getpelican.com/"),
   ("Python.org", "http://python.org/"),
   ("Jinja2", "http://jinja.pocoo.org/"),
   ("CloudFlare", "https://www.cloudflare.com/ยง")]

/-- The `SOCIAL` tuple of `site/pelicanconf.py` (the social widget), in
source order. -/
def SOCIAL : List (String × String) :=
  [("github", "https://github.com/gregn610"),
   ("linkedin", "https://www.linkedin.com/in/greg-nicol-087a438/")]

/-- The module `site/pelicanconf.py` as the ordered list of its
module-level assignments.  The commented-out line `#RELATIVE_URLS = True`
is not an assignment and therefore contributes no binding. -/
def pelicanconf : List (String × PyValue) :=
  [("AUTHOR", .str "greg nicol"),
   ("SITENAME", .str "INSERT INTO /dev/null ..."),
   ("SITEURL", .str ""),
   ("PATH", .str "content"),
   ("TIMEZONE", .str "Europe/Paris"),
   ("DEFAULT_LANG", .str "en"),
   ("FEED_ALL_ATOM", .none),
   ("CATEGORY_FEED_ATOM", .none),
   ("TRANSLATION_FEED_ATOM", .none),
   ("AUTHOR_FEED_ATOM", .none),
   ("AUTHOR_FEED_RSS", .none),
   ("LINKS", .pairs LINKS),
   ("SOCIAL", .pairs SOCIAL),
   ("DEFAULT_PAGINATION", .bool false),
   ("THEME", .str "themes/pelican-sober")]

/-- Look a key up in the configuration record (first binding wins, as in
a Python module namespace read after execution when keys are unique). -/
def lookupKey (k : String) : Option PyValue :=
  (pelicanconf.find? (fun kv => kv.1 == k)).map Prod.snd

/-- The option holds a non-empty string value. -/
def isNonEmptyStr : Option PyValue → Bool
  | some (.str s) => !(s == "")
  | _ => false

/-- The six keys the spec lists as required: author, site name, content
path, timezone, default language, theme. -/
def requiredKeys : List String :=
  ["AUTHOR", "SITENAME", "PATH", "TIMEZONE", "DEFAULT_LANG", "THEME"]

/-- The first list is a prefix of the second, character by character. -/
def hasPrefixChars : List Char → List Char → Bool
  | [], _ => true
  | _ :: _, [] => false
  | p :: ps, c :: cs => p == c && hasPrefixChars ps cs

/-- The string `s` starts with the string `p`. -/
def strStartsWith (s p : String) : Bool :=
  hasPrefixChars p.toList s.toList

/-- The string `s` ends with the string `p`. -/
def strEndsWith (s p : String) : Bool :=
  hasPrefixChars p.toList.reverse s.toList.reverse

/-- The decimal digit denoted by a character, if any. -/
def charDigit? (c : Char) : Option Nat :=
  if c.isDigit then some (c.toNat - 48) else Option.none

/-- Fold decimal digits into a number, failing on a non-digit. -/
def natFromChars : List Char → Nat → Option Nat
  | [], acc => some acc
  | c :: cs, acc =>
      match charDigit? c with
      | some d => natFromChars cs (acc * 10 + d)
      | Option.none => Option.none

/-- Parse a non-empty all-digit string as a decimal number. -/
def strToNat (s : String) : Option Nat :=
  match s.toList with
  | [] => Option.none
  | c :: cs => natFromChars (c :: cs) 0

/-- The character for a decimal digit. -/
def natDigitChar (d : Nat) : Char := Char.ofNat (48 + d)

/-- Decimal digits of `n`, least significant first; the fuel bounds the
number of digits. -/
def natToRevChars : Nat → Nat → List Char
  | 0, _ => []
  | fuel + 1, n =>
      if n < 10 then [natDigitChar n]
      else natDigitChar (n % 10) :: natToRevChars fuel (n / 10)

/-- Render a number in decimal. -/
def natToStr (n : Nat) : String :=
  String.mk (natToRevChars (n + 1) n).reverse

/-- Punctuation characters permitted in a URL besides ASCII letters and
digits (the RFC 3986 reserved and unreserved punctuation plus the
percent sign). -/
def urlExtraChars : List Char :=
  ['-', '.', '_', '~', ':', '/', '?', '#', '[', ']', '@', '!', '$',
   '&', '(', ')', '*', '+', ',', ';', '=', '%']

/-- A character that may appear in a URL: an ASCII letter or digit, or
one of the permitted punctuation characters. -/
def isUrlChar (c : Char) : Bool :=
  c.isAlphanum || urlExtraChars.contains c

/-- Modelled from the spec: the repository itself contains no URL
parser (the spec notes that well-formedness of URLs is enforced, if at
all, by the external generator).  Following the spec, a string parses
as a URL when it starts with an `http` or `https` scheme and consists
solely of characters a URL may contain; the spec classifies a URL with
a stray non-ASCII character as malformed. -/
def parsesAsURL (s : String) : Bool :=
  (strStartsWith s "http://" || strStartsWith s "https://") && s.toList.all isUrlChar

/-- A key of the record naming a feed toggle: the five `FEED` settings
all end in `_ATOM` or `_RSS`, and no other key does. -/
def isFeedKey (k : String) : Bool :=
  strEndsWith k "_ATOM" || strEndsWith k "_RSS"

/-- The feed-toggle bindings of the record, in source order. -/
def feedBindings : List (String × PyValue) :=
  pelicanconf.filter (fun kv => isFeedKey kv.1)

/-- Modelled from the spec: the repository contains no serializer; the
spec only requires that serializing the record and reloading it yields
field-for-field equality, suggesting a struct literal or document
format.  We emit each binding as a line group: the key, then a tag
naming the value kind, then the payload (for a tuple of pairs, its
length followed by the flattened elements). -/
def encodeValue : PyValue → List String
  | .str s => ["str", s]
  | .none => ["none"]
  | .bool b => ["bool", if b then "true" else "false"]
  | .pairs l => "pairs" :: natToStr l.length ::
      l.foldr (fun p acc => p.1 :: p.2 :: acc) []

/-- One serialized binding: the key followed by its encoded value. -/
def encodeBinding (kv : String × PyValue) : List String :=
  kv.1 :: encodeValue kv.2

/-- Modelled from the spec: the serialized document, as its list of
lines, covering every binding of the record in order. -/
def serialize (conf : List (String × PyValue)) : List String :=
  conf.foldr (fun kv acc => encodeBinding kv ++ acc) []

/-- Read back `n` string pairs from the front of the line list. -/
def decodePairs : Nat → List String → Option (List (String × String) × List String)
  | 0, rest => some ([], rest)
  | n + 1, a :: b :: rest =>
      (decodePairs n rest).map (fun r => ((a, b) :: r.1, r.2))
  | _ + 1, _ => Option.none

/-- Read back one value from the front of the line list. -/
def decodeValue : List String → Option (PyValue × List String)
  | "str" :: s :: rest => some (.str s, rest)
  | "none" :: rest => some (.none, rest)
  | "bool" :: b :: rest =>
      if b == "true" then some (.bool true, rest)
      else if b == "false" then some (.bool false, rest)
      else Option.none
  | "pairs" :: n :: rest =>
      match strToNat n with
      | some k => (decodePairs k rest).map (fun r => (.pairs r.1, r.2))
      | Option.none => Option.none
  | _ => Option.none

/-- Read back bindings until the line list is exhausted; the fuel bounds
the number of bindings by the number of remaining lines. -/
def decodeBindings : Nat → List String → Option (List (String × PyValue))
  | _, [] => some []
  | fuel + 1, k :: rest =>
      match decodeValue rest with
      | some (v, rest2) =>
          (decodeBindings fuel rest2).map (fun l => (k, v) :: l)
      | Option.none => Option.none
  | 0, _ :: _ => Option.none

/-- Modelled from the spec: reload a serialized document into a
configuration record. -/
def deserialize (lines : List String) : Option (List (String × PyValue)) :=
  decodeBindings lines.length lines

/-- Claim C1: for every required key of the configuration record —
author, site name, content path, timezone, default language, and theme —
the record binds that key to a non-empty string value. -/
theorem required_keys_nonempty_strings :
    requiredKeys.all (fun k => isNonEmptyStr (lookupKey k)) = true := by decide

/-- Claim C2 fails as stated: the CloudFlare entry of `LINKS` has a
second element whose last two characters are non-ASCII (U+0E22 U+0E07),
so it does not parse as a URL. -/
theorem cloudflare_url_counterexample :
    ("CloudFlare", "https://www.cloudflare.com/ยง") ∈ LINKS ∧
    parsesAsURL "https://www.cloudflare.com/ยง" = false := by decide

/-- Claim C2 as amended: the links list and the social list are each an
ordered sequence of 2-tuples of non-empty strings, and for every entry
in either list except the CloudFlare entry — whose URL contains
non-ASCII characters — the second element of the pair parses as a
URL. -/
theorem links_social_wellformed :
    ((LINKS ++ SOCIAL).all (fun p => !(p.1 == "") && !(p.2 == ""))) = true ∧
    ((LINKS ++ SOCIAL).all (fun p => p.1 == "CloudFlare" || parsesAsURL p.2)) = true := by
  decide

/-- Claim C3 fails as stated: the configuration record contains five
feed-toggle fields, not four (`FEED_ALL_ATOM`, `CATEGORY_FEED_ATOM`,
`TRANSLATION_FEED_ATOM`, `AUTHOR_FEED_ATOM`, `AUTHOR_FEED_RSS`). -/
theorem feed_toggle_count_counterexample :
    feedBindings.length = 5 ∧ feedBindings.length ≠ 4 := by decide

/-- Claim C3 as amended: the configuration record contains exactly five
feed-toggle fields, and each of them is either unset/disabled (the
disabled sentinel) or a valid feed-path string — in fact each is the
disabled sentinel. -/
theorem feed_toggles_five_each_disabled :
    feedBindings.length = 5 ∧
    feedBindings.all (fun kv => kv.2 == PyValue.none) = true := by decide

/-- Claim C4: the configuration record holds author `greg nicol`, site
name `INSERT INTO /dev/null ...`, timezone `Europe/Paris`, and the
boolean `false` as the pagination default. -/
theorem exact_core_values :
    lookupKey "AUTHOR" = some (.str "greg nicol") ∧
    lookupKey "SITENAME" = some (.str "INSERT INTO /dev/null ...") ∧
    lookupKey "TIMEZONE" = some (.str "Europe/Paris") ∧
    lookupKey "DEFAULT_PAGINATION" = some (.bool false) := by decide

/-- Claim C5: every feed-toggle field in the configuration record is set
to the disabled sentinel `None`, and the record does have feed-toggle
fields, so feed generation is disabled for all feed kinds. -/
theorem feed_fields_all_none :
    pelicanconf.all (fun kv => !(isFeedKey kv.1) || kv.2 == PyValue.none) = true ∧
    feedBindings ≠ [] := by decide

/-- Claim C6: serializing the configuration record defined by this file
and reloading it yields a record equal to the original, field for
field. -/
theorem serialize_roundtrip :
    deserialize (serialize pelicanconf) = some pelicanconf := by decide

/-- Claim C7: each key of the configuration record is bound exactly once
— the list of keys, in source order, has no duplicate — and since the
file consists only of these constant assignments, every field holds its
initial value for the whole lifetime of the record. -/
theorem keys_bound_once :
    (pelicanconf.map Prod.fst).Nodup := by decide

/-- Claim C8: the site URL field of the configuration record is a string
and is the empty string. -/
theorem siteurl_empty_string :
    lookupKey "SITEURL" = some (.str "") := by decide

/-- Claim C9: the relative-URLs flag is commented out in the source and
therefore absent from the constructed configuration record: the record
defines no `RELATIVE_URLS` key. -/
theorem relative_urls_absent :
    lookupKey "RELATIVE_URLS" = Option.none := by decide

/-- Claim C10: the links list is exactly the four listed label/URL pairs
in source order (the CloudFlare URL ending in U+0E22 U+0E07), and the
social list is exactly the two listed platform/URL pairs in source
order. -/
theorem links_social_exact :
    lookupKey "LINKS" =
      some (.pairs [("Pelican", "http://getpelican.com/"),
                    ("Python.org", "http://python.org/"),
                    ("Jinja2", "http://jinja.pocoo.org/"),
                    ("CloudFlare", "https://www.cloudflare.com/ยง")]) ∧
    lookupKey "SOCIAL" =
      some (.pairs [("github", "https://github.com/gregn610"),
                    ("linkedin", "https://www.linkedin.com/in/greg-nicol-087a438/")]) := by
  decide

end Pelicanconf
